import Mathlib

/-!
Verification of the packet layer (`src/flow/payload.rs`) and the lobsters
`comment_vote` endpoint (`applications/lobsters/noria/endpoints/comment_vote.rs`)
of the noria dataflow engine, against its natural-language specification.

Modelling conventions:
* Machine integers become `Nat`/`Int` (no overflow is exercised by the code
  under study).
* A Rust function that can `panic!`/`unreachable!`/`unimplemented!` becomes a
  Lean function returning `Option`: `none` is the panic.
* Identifier-like types whose internals the verified code never inspects
  (`NodeAddress`, `Tag`, `DataType`, graph node descriptors, checktable tokens,
  backlog handles, ...) are opaque `Nat`s.
* A channel sender is an explicit queue; a send either enqueues or, when the
  channel is closed or at capacity, leaves it unchanged and reports failure.
  Channel handles carrying `Packet`s are opaque ids (no modelled code ever
  sends on one).
-/

deriving instance DecidableEq for Except

namespace Noria

abbrev NodeAddress := Nat
abbrev LocalNodeIndex := Nat
abbrev Tag := Nat
abbrev DataType := Nat
abbrev TimeInstant := Nat
abbrev DomainIndex := Nat
abbrev GraphNodeIndex := Nat
abbrev CheckTableToken := Nat
abbrev NodeDescriptor := Nat
abbrev StreamUpdate := Nat
abbrev DomainStats := Nat
abbrev NodeStats := Nat
/-- `backlog::WriteHandle`: opaque live writer handle held by `InitialState::PartialGlobal`. -/
abbrev WriteHandle := Nat
/-- `backlog::ReadHandle`: opaque live reader handle held by `InitialState::PartialGlobal`. -/
abbrev ReadHandle := Nat
/-- Opaque id of a channel that carries `Packet`s (`channel::Sender<Packet>` and
friends); no code modelled here ever sends on such a channel. -/
abbrev PacketChannel := Nat

/-- `Link`: the `(src, dst)` edge descriptor every data packet carries. -/
structure Link where
  src : NodeAddress
  dst : NodeAddress
deriving DecidableEq, Repr

/-- Modelled from the spec: the `channel` module is not part of the sources under
study.  §4.F and §2 describe its senders as best-effort bounded or unbounded
queues: a send on a closed or full channel drops the message and reports an
error, and never blocks. -/
structure Sender (α : Type) where
  queue : List α
  capacity : Option Nat
  closed : Bool
deriving DecidableEq, Repr

/-- Best-effort send: enqueue when the channel is open and not at capacity,
otherwise leave the channel unchanged and report failure (`false`). -/
def Sender.send (s : Sender α) (m : α) : Sender α × Bool :=
  if s.closed then (s, false)
  else
    match s.capacity with
    | some c => if c ≤ s.queue.length then (s, false)
                else ({ s with queue := s.queue ++ [m] }, true)
    | none => ({ s with queue := s.queue ++ [m] }, true)

/-- `channel::SyncSender` is modelled the same way as `channel::Sender`. -/
abbrev SyncSender (α : Type) := Sender α

/-- Modelled from the spec: `Records` lives in `flow::prelude`, outside the
sources under study.  §3 describes it as an ordered multiset of
`(row, polarity)` pairs. -/
inductive Record where
  | positive : List DataType → Record
  | negative : List DataType → Record
deriving DecidableEq, Repr

abbrev Records := List Record

/-- Modelled from the spec: a node's materialized `State` (the payload of
`Packet::FullReplay`) lives outside the sources under study; §3 describes it as
a keyed collection of rows.  The packet operations verified here never inspect
it, so rows suffice. -/
abbrev State := List (List DataType)

/-- `TriggerEndpoint` from `payload.rs`. -/
inductive TriggerEndpoint where
  | none : TriggerEndpoint
  | start : List Nat → TriggerEndpoint
  | end_ : PacketChannel → TriggerEndpoint
  | local : List Nat → TriggerEndpoint
deriving DecidableEq, Repr

/-- The serde-facing mirror of `InitialState` (`InitialStateDef` in
`payload.rs`); this is the wire form, its derived codec is the identity. -/
inductive InitialStateDef where
  | partialLocal : Nat → InitialStateDef
  | indexedLocal : List (List Nat) → InitialStateDef
  | partialGlobal : InitialStateDef
  | global : InitialStateDef
deriving DecidableEq, Repr

/-- `InitialState` from `payload.rs`; `PartialGlobal` owns live backlog
handles. -/
inductive InitialState where
  | partialLocal : Nat → InitialState
  | indexedLocal : List (List Nat) → InitialState
  | partialGlobal : WriteHandle → ReadHandle → InitialState
  | global : InitialState
deriving DecidableEq, Repr

/-- `impl Serialize for InitialState`: convert to the wire form
`InitialStateDef`; the `PartialGlobal` arm is `unimplemented!()` (`none`). -/
def InitialState.serialize : InitialState → Option InitialStateDef
  | .partialLocal u => some (.partialLocal u)
  | .indexedLocal v => some (.indexedLocal v)
  | .partialGlobal _ _ => none
  | .global => some .global

/-- `impl Deserialize for InitialState`: convert back from the wire form; the
`PartialGlobal` arm is `unimplemented!()` (`none`). -/
def InitialState.deserialize : InitialStateDef → Option InitialState
  | .partialLocal u => some (.partialLocal u)
  | .indexedLocal v => some (.indexedLocal v)
  | .partialGlobal => none
  | .global => some .global

/-- `ReplayPieceContext` from `payload.rs`. -/
inductive ReplayPieceContext where
  | partial_ : (for_key : List DataType) → (ignore : Bool) → ReplayPieceContext
  | regular : (last : Bool) → ReplayPieceContext
deriving DecidableEq, Repr

/-- `TransactionState` from `payload.rs`. -/
inductive TransactionState where
  | committed : Int → GraphNodeIndex → Option (List (DomainIndex × Int)) → TransactionState
  | pending : CheckTableToken → Sender (Except Unit Int) → TransactionState
  | willCommit : TransactionState
deriving DecidableEq, Repr

/-- `ReplayTransactionState` from `payload.rs`. -/
structure ReplayTransactionState where
  ts : Int
  prevs : Option (List (DomainIndex × Int))
deriving DecidableEq, Repr

/-- `PacketEvent` from `payload.rs`: events emitted while a packet is
processed. -/
inductive PacketEvent where
  | exitInputChannel : PacketEvent
  | handle : PacketEvent
  | process : PacketEvent
  | reachedReader : PacketEvent
deriving DecidableEq, Repr

/-- `Tracer`: an optional send-only channel for `(timestamp, event)` pairs. -/
abbrev Tracer := Option (Sender (TimeInstant × PacketEvent))

/-- `Packet` from `payload.rs`: the tagged message unit, with its four data
variants followed by the internal/control variants in source order. -/
inductive Packet where
  | message : (link : Link) → (data : Records) → (tracer : Tracer) → Packet
  | transaction : (link : Link) → (data : Records) → (state : TransactionState) →
      (tracer : Tracer) → Packet
  | fullReplay : (link : Link) → (tag : Tag) → (state : State) → Packet
  | replayPiece : (link : Link) → (tag : Tag) → (data : Records) →
      (context : ReplayPieceContext) →
      (transaction_state : Option ReplayTransactionState) → Packet
  | finish : Tag → LocalNodeIndex → Packet
  | addNode : (node : NodeDescriptor) → (parents : List LocalNodeIndex) → Packet
  | addBaseColumn : (node : LocalNodeIndex) → (field : String) →
      (default : DataType) → (ack : SyncSender Unit) → Packet
  | dropBaseColumn : (node : LocalNodeIndex) → (column : Nat) →
      (ack : SyncSender Unit) → Packet
  | updateEgress : (node : LocalNodeIndex) →
      (new_tx : Option (NodeAddress × NodeAddress × PacketChannel)) →
      (new_tag : Option (Tag × NodeAddress)) → Packet
  | addStreamer : (node : LocalNodeIndex) →
      (new_streamer : Sender (List StreamUpdate)) → Packet
  | requestUnboundedTx : PacketChannel → Packet
  | prepareState : (node : LocalNodeIndex) → (state : InitialState) → Packet
  | stateSizeProbe : (node : LocalNodeIndex) → (ack : SyncSender Nat) → Packet
  | setupReplayPath : (tag : Tag) → (source : Option NodeAddress) →
      (path : List (NodeAddress × Option Nat)) →
      (done_tx : Option (SyncSender Unit)) → (trigger : TriggerEndpoint) →
      (ack : SyncSender Unit) → Packet
  | requestPartialReplay : (tag : Tag) → (key : List DataType) → Packet
  | startReplay : (tag : Tag) → (from_ : NodeAddress) →
      (ack : SyncSender Unit) → Packet
  | ready : (node : LocalNodeIndex) → (index : List (List Nat)) →
      (ack : SyncSender Unit) → Packet
  | quit : Packet
  | startMigration : (at_ : Int) → (prev_ts : Int) →
      (ack : SyncSender Unit) → Packet
  | completeMigration : (at_ : Int) →
      (ingress_from_base : List (GraphNodeIndex × Nat)) → Packet
  | getStatistics : SyncSender (DomainStats × List (GraphNodeIndex × NodeStats)) → Packet
  | captured : Packet
  | none : Packet
deriving DecidableEq, Repr

namespace Packet

/-- `Packet::link`: the `Link` of a data packet; `unreachable!()` (`none`) on
every other variant. -/
def link : Packet → Option Link
  | .message link _ _ => some link
  | .transaction link _ _ _ => some link
  | .fullReplay link _ _ => some link
  | .replayPiece link _ _ _ _ => some link
  | _ => Option.none

/-- `Packet::link_mut`: the caller mutates through the returned reference, so
the model takes the in-place update `f`; `unreachable!()` (`none`) on every
other variant. -/
def link_mut (p : Packet) (f : Link → Link) : Option Packet :=
  match p with
  | .message link d t => some (.message (f link) d t)
  | .transaction link d st t => some (.transaction (f link) d st t)
  | .fullReplay link tg st => some (.fullReplay (f link) tg st)
  | .replayPiece link tg d c ts => some (.replayPiece (f link) tg d c ts)
  | _ => Option.none

/-- `Packet::is_empty`: emptiness of the carried records (`FullReplay` is never
empty, the `None` sentinel always is); `unreachable!()` (`none`) on the control
variants. -/
def is_empty : Packet → Option Bool
  | .message _ data _ => some data.isEmpty
  | .transaction _ data _ _ => some data.isEmpty
  | .fullReplay _ _ _ => some false
  | .replayPiece _ _ data _ _ => some data.isEmpty
  | .none => some true
  | _ => Option.none

/-- `Packet::map_data`: apply `map` in place to the carried records;
`unreachable!()` (`none`) on every variant that carries none. -/
def map_data (p : Packet) (map : Records → Records) : Option Packet :=
  match p with
  | .message l data t => some (.message l (map data) t)
  | .transaction l data st t => some (.transaction l (map data) st t)
  | .replayPiece l tg data c ts => some (.replayPiece l tg (map data) c ts)
  | _ => Option.none

/-- `Packet::is_regular`: true exactly for `Message` and `Transaction`. -/
def is_regular : Packet → Bool
  | .message _ _ _ => true
  | .transaction _ _ _ _ => true
  | _ => false

/-- `Packet::tag`: the replay tag of the replay variants, `None` otherwise
(total, never panics). -/
def tag : Packet → Option Tag
  | .fullReplay _ tag _ => some tag
  | .replayPiece _ tag _ _ _ => some tag
  | _ => Option.none

/-- `Packet::data`: the carried records; `unreachable!()` (`none`) on every
variant that carries none. -/
def data : Packet → Option Records
  | .message _ data _ => some data
  | .transaction _ data _ _ => some data
  | .replayPiece _ _ data _ _ => some data
  | _ => Option.none

/-- `Packet::take_data`: `mem::replace` the packet with the `None` sentinel and
return the records of the replaced packet; `unreachable!()` (`none`) when it
carries no records. -/
def take_data (p : Packet) : Option (Records × Packet) :=
  match p with
  | .message _ data _ => some (data, .none)
  | .transaction _ data _ _ => some (data, .none)
  | .replayPiece _ _ data _ _ => some (data, .none)
  | _ => Option.none

/-- `Packet::clone_data`: clone a `Message` or `Transaction` field by field;
`unreachable!()` (`none`) on every other variant. -/
def clone_data : Packet → Option Packet
  | .message link data tracer => some (.message link data tracer)
  | .transaction link data state tracer => some (.transaction link data state tracer)
  | _ => Option.none

/-- `Packet::trace`: on a `Message`/`Transaction` with an attached tracer, send
`(0, event)` on it, discarding the send outcome (`let _ = sender.send(..)`);
a no-op on every other packet.  Total: there is no panicking arm. -/
def trace (p : Packet) (event : PacketEvent) : Packet :=
  match p with
  | .message l d (some sender) => .message l d (some (sender.send (0, event)).1)
  | .transaction l d st (some sender) =>
      .transaction l d st (some (sender.send (0, event)).1)
  | p => p

/-- `Packet::tracer`: a mutable borrow of the tracer slot of a
`Message`/`Transaction`, `None` otherwise; modelled as the in-place update `f`
on the slot. -/
def tracer_mut (p : Packet) (f : Tracer → Tracer) : Option Packet :=
  match p with
  | .message l d tracer => some (.message l d (f tracer))
  | .transaction l d st tracer => some (.transaction l d st (f tracer))
  | _ => Option.none

/-- The spec's classification (§4.A): the four data variants `Message`,
`Transaction`, `FullReplay`, `ReplayPiece`.  Used only to state the claims. -/
def isDataVariant : Packet → Bool
  | .message _ _ _ => true
  | .transaction _ _ _ _ => true
  | .fullReplay _ _ _ => true
  | .replayPiece _ _ _ _ _ => true
  | _ => false

/-- The spec's classification: the record-carrying variants (`Message`,
`Transaction`, `ReplayPiece` — not `FullReplay`, which owns `State`).  Used
only to state the claims. -/
def carriesRecords : Packet → Bool
  | .message _ _ _ => true
  | .transaction _ _ _ _ => true
  | .replayPiece _ _ _ _ _ => true
  | _ => false

/-- The spec's classification: the replay variants `FullReplay` and
`ReplayPiece`.  Used only to state the claims. -/
def isReplayVariant : Packet → Bool
  | .fullReplay _ _ _ => true
  | .replayPiece _ _ _ _ _ => true
  | _ => false

/-- Whether a tracer channel is attached (a `Message`/`Transaction` whose
tracer slot is `Some`).  Used only to state the claims. -/
def hasTracer : Packet → Bool
  | .message _ _ (some _) => true
  | .transaction _ _ _ (some _) => true
  | _ => false

end Packet

end Noria

namespace CommentVote

/-!
Model of `applications/lobsters/noria/endpoints/comment_vote.rs`.  The database
connection is abstract: the outcome of each awaited database operation, in
program order, is an input (`DbEnv`).  The handler itself is translated
statement by statement; a Rust `panic` (a failed `unwrap`) is `none`, a
propagated error (`?`) is `some (log, .error e)`.
-/

abbrev Conn := Nat
abbrev Error := Nat
/-- `trawler::UserId` (a `u32`). -/
abbrev UserId := Nat
/-- `trawler::StoryId`: a fixed-size byte array, modelled as its list of byte
values. -/
abbrev StoryId := List Nat

/-- `trawler::Vote`. -/
inductive Vote where
  | up : Vote
  | down : Vote
deriving DecidableEq, Repr

/-- A noria row value as this endpoint builds them: integers (user ids, vote
bits) or values taken from a looked-up row. -/
inductive Value where
  | int : Int → Value
  | text : String → Value
deriving DecidableEq, Repr

/-- A looked-up noria row: named columns in order. -/
abbrev Row := List (String × Value)

/-- `Row::take(field)`: remove the first column named `field` and return its
value together with the remaining row; `none` when no such column exists. -/
def rowTake : Row → String → Option (Value × Row)
  | [], _ => none
  | (k, v) :: rest, field =>
      if k = field then some (v, rest)
      else (rowTake rest field).map (fun p => (p.1, (k, v) :: p.2))

/-- Is a continuation byte (`0x80..=0xBF`)? -/
def contByte (b : Nat) : Bool := 0x80 ≤ b && b ≤ 0xBF

/-- `std::str::from_utf8` succeeds exactly on valid UTF-8; this is the standard
byte-level validation (rejecting overlong forms, surrogates and values above
`0x10FFFF`). -/
def isValidUTF8 : List Nat → Bool
  | [] => true
  | b :: rest =>
    if b ≤ 0x7F then isValidUTF8 rest
    else if 0xC2 ≤ b && b ≤ 0xDF then
      match rest with
      | b1 :: rest2 => contByte b1 && isValidUTF8 rest2
      | [] => false
    else if b = 0xE0 then
      match rest with
      | b1 :: b2 :: rest3 =>
          (0xA0 ≤ b1 && b1 ≤ 0xBF) && contByte b2 && isValidUTF8 rest3
      | _ => false
    else if (0xE1 ≤ b && b ≤ 0xEC) || b = 0xEE || b = 0xEF then
      match rest with
      | b1 :: b2 :: rest3 => contByte b1 && contByte b2 && isValidUTF8 rest3
      | _ => false
    else if b = 0xED then
      match rest with
      | b1 :: b2 :: rest3 =>
          (0x80 ≤ b1 && b1 ≤ 0x9F) && contByte b2 && isValidUTF8 rest3
      | _ => false
    else if b = 0xF0 then
      match rest with
      | b1 :: b2 :: b3 :: rest4 =>
          (0x90 ≤ b1 && b1 ≤ 0xBF) && contByte b2 && contByte b3 &&
            isValidUTF8 rest4
      | _ => false
    else if 0xF1 ≤ b && b ≤ 0xF3 then
      match rest with
      | b1 :: b2 :: b3 :: rest4 =>
          contByte b1 && contByte b2 && contByte b3 && isValidUTF8 rest4
      | _ => false
    else if b = 0xF4 then
      match rest with
      | b1 :: b2 :: b3 :: rest4 =>
          (0x80 ≤ b1 && b1 ≤ 0x8F) && contByte b2 && contByte b3 &&
            isValidUTF8 rest4
      | _ => false
    else false

/-- The outcome of each awaited database operation of the handler, in program
order.  A `.error` models the corresponding `.await?` propagating a
`failure::Error`. -/
structure DbEnv where
  /-- `c.await` — obtaining the connection. -/
  connRes : Except Error Conn
  /-- `c.view("comment_vote_1").await`. -/
  view1Res : Except Error Unit
  /-- `.lookup_first(key, true).await` on that view. -/
  lookupFirstRes : Except Error (Option Row)
  /-- `c.view("comment_vote_2").await`. -/
  view2Res : Except Error Unit
  /-- `.lookup(key, true).await` on that view — the prior-vote rows. -/
  lookupRes : Except Error (List Row)
  /-- `c.table("vote").await`. -/
  tableRes : Except Error Unit
  /-- `.insert(row).await`. -/
  insertRes : Except Error Unit
deriving DecidableEq, Repr

/-- A row inserted into a table: table name and column values. -/
abbrev TableInsert := String × List Value

/-- The `handle` endpoint: `none` is a panic (failed `unwrap`); otherwise the
list of rows inserted into base tables together with the handler's
`Result<(Conn, bool), Error>`. -/
def handle (env : DbEnv) (acting_as : Option UserId) (comment : StoryId)
    (v : Vote) : Option (List TableInsert × Except Error (Conn × Bool)) :=
  match env.connRes with
  | .error e => some ([], .error e)
  | .ok c =>
  match acting_as with
  | none => none
  | some user =>
  match env.view1Res with
  | .error e => some ([], .error e)
  | .ok _ =>
  if isValidUTF8 comment then
    match env.lookupFirstRes with
    | .error e => some ([], .error e)
    | .ok Option.none => none
    | .ok (some row) =>
    match rowTake row "story_id" with
    | none => none
    | some (sid, row2) =>
    match rowTake row2 "id" with
    | none => none
    | some (commentId, _) =>
    match env.view2Res with
    | .error e => some ([], .error e)
    | .ok _ =>
    match env.lookupRes with
    | .error e => some ([], .error e)
    | .ok _prior =>
    match env.tableRes with
    | .error e => some ([], .error e)
    | .ok _ =>
      let ins : TableInsert :=
        ("vote", [Value.int user, sid, commentId,
                  Value.int (match v with | .up => 1 | .down => 0)])
      match env.insertRes with
      | .error e => some ([ins], .error e)
      | .ok _ => some ([ins], .ok (c, false))
  else none

/-- A sample database environment in which every awaited operation succeeds,
the looked-up comment row has `story_id = 7` and `id = 9`, and the prior-vote
lookup finds an existing vote row. -/
def sampleEnv : DbEnv where
  connRes := .ok 0
  view1Res := .ok ()
  lookupFirstRes := .ok (some [("story_id", Value.int 7), ("id", Value.int 9)])
  view2Res := .ok ()
  lookupRes := .ok [[("user", Value.int 3)]]
  tableRes := .ok ()
  insertRes := .ok ()

end CommentVote

namespace Noria

/-- C1: `link()` and `link_mut()` return (a reference to) the packet's `Link`
field exactly on the four data variants `Message`, `Transaction`, `FullReplay`
and `ReplayPiece`; on every other variant the call is a programmer error
(`unreachable!`, modelled `none`), so under the precondition that the packet is
a data variant the panicking branch is unreachable. -/
theorem claim_C1_link_accessors :
    (∀ l d t, (Packet.message l d t).link = some l) ∧
    (∀ l d st t, (Packet.transaction l d st t).link = some l) ∧
    (∀ l tg s, (Packet.fullReplay l tg s).link = some l) ∧
    (∀ l tg d c ts, (Packet.replayPiece l tg d c ts).link = some l) ∧
    (∀ l d t f, (Packet.message l d t).link_mut f = some (.message (f l) d t)) ∧
    (∀ l d st t f,
      (Packet.transaction l d st t).link_mut f = some (.transaction (f l) d st t)) ∧
    (∀ l tg s f, (Packet.fullReplay l tg s).link_mut f = some (.fullReplay (f l) tg s)) ∧
    (∀ l tg d c ts f,
      (Packet.replayPiece l tg d c ts).link_mut f = some (.replayPiece (f l) tg d c ts)) ∧
    (∀ p : Packet, p.link.isSome ↔ p.isDataVariant = true) ∧
    (∀ (p : Packet) f, (p.link_mut f).isSome ↔ p.isDataVariant = true) := by
  refine ⟨fun _ _ _ => rfl, fun _ _ _ _ => rfl, fun _ _ _ => rfl, fun _ _ _ _ _ => rfl,
    fun _ _ _ _ => rfl, fun _ _ _ _ _ => rfl, fun _ _ _ _ => rfl, fun _ _ _ _ _ _ => rfl,
    fun p => ?_, fun p f => ?_⟩ <;>
    cases p <;> simp [Packet.link, Packet.link_mut, Packet.isDataVariant]

/-- C2: serializing `InitialState::PartialGlobal` is a programmer error
(`unimplemented!`, modelled `none`); for each of the other variants
(`PartialLocal`, `IndexedLocal`, `Global`) deserializing the serialization
gives back the original value. -/
theorem claim_C2_initialstate_serialization :
    (∀ w r, InitialState.serialize (.partialGlobal w r) = Option.none) ∧
    (∀ u, (InitialState.serialize (.partialLocal u)).bind InitialState.deserialize =
      some (.partialLocal u)) ∧
    (∀ v, (InitialState.serialize (.indexedLocal v)).bind InitialState.deserialize =
      some (.indexedLocal v)) ∧
    (InitialState.serialize .global).bind InitialState.deserialize = some .global :=
  ⟨fun _ _ => rfl, fun _ => rfl, fun _ => rfl, rfl⟩

/-- C3: `clone_data()` is defined exactly on `Message` and `Transaction`
(the `is_regular` variants) and there returns a packet of the same variant with
field-by-field equal (cloned) link, data, transaction state and tracer; on
every other variant it panics (`none`). -/
theorem claim_C3_clone_data :
    (∀ l d t, (Packet.message l d t).clone_data = some (Packet.message l d t)) ∧
    (∀ l d st t,
      (Packet.transaction l d st t).clone_data = some (Packet.transaction l d st t)) ∧
    (∀ p : Packet, p.clone_data.isSome ↔ p.is_regular = true) := by
  refine ⟨fun _ _ _ => rfl, fun _ _ _ _ => rfl, fun p => ?_⟩
  cases p <;> simp [Packet.clone_data, Packet.is_regular]

/-- C4: `data()` and `take_data()` are defined exactly on the record-carrying
variants `Message`, `Transaction` and `ReplayPiece` (not on `FullReplay`);
`take_data` returns the packet's records and replaces the packet with the
`Packet::None` sentinel, for which `is_empty()` returns `true`; on every other
variant both panic (`none`). -/
theorem claim_C4_data_and_take_data :
    (∀ l d t, (Packet.message l d t).data = some d) ∧
    (∀ l d st t, (Packet.transaction l d st t).data = some d) ∧
    (∀ l tg d c ts, (Packet.replayPiece l tg d c ts).data = some d) ∧
    (∀ l tg s, (Packet.fullReplay l tg s).data = Option.none) ∧
    (∀ p : Packet, p.data.isSome ↔ p.carriesRecords = true) ∧
    (∀ p : Packet, p.take_data = p.data.map (fun d => (d, Packet.none))) ∧
    Packet.none.is_empty = some true := by
  refine ⟨fun _ _ _ => rfl, fun _ _ _ _ => rfl, fun _ _ _ _ _ => rfl, fun _ _ _ => rfl,
    fun p => ?_, fun p => ?_, rfl⟩ <;>
    cases p <;> simp [Packet.data, Packet.take_data, Packet.carriesRecords]

/-- C5: `trace(event)` is total (the model has no panicking arm): on a
`Message`/`Transaction` with an attached tracer it performs a best-effort send
of `(0, event)` — the source zeros the timestamp — whose outcome is discarded
(a closed channel, or a channel at capacity, keeps its queue and the packet is
otherwise unchanged); on a packet with no attached tracer it is a no-op. -/
theorem claim_C5_trace_best_effort :
    (∀ l d s e, (Packet.message l d (some s)).trace e =
      Packet.message l d (some (s.send (0, e)).1)) ∧
    (∀ l d st s e, (Packet.transaction l d st (some s)).trace e =
      Packet.transaction l d st (some (s.send (0, e)).1)) ∧
    (∀ (s : Sender (TimeInstant × PacketEvent)) m, s.closed = true →
      s.send m = (s, false)) ∧
    (∀ (s : Sender (TimeInstant × PacketEvent)) m c, s.capacity = some c →
      c ≤ s.queue.length → s.send m = (s, false)) ∧
    (∀ (s : Sender (TimeInstant × PacketEvent)) m, s.closed = false →
      s.capacity = Option.none → s.send m = ({ s with queue := s.queue ++ [m] }, true)) ∧
    (∀ (p : Packet) e, p.hasTracer = false → p.trace e = p) := by
  refine ⟨fun _ _ _ _ => rfl, fun _ _ _ _ _ => rfl,
    fun s m h => by simp [Sender.send, h],
    fun s m c hc hlen => ?_,
    fun s m h1 h2 => by simp [Sender.send, h1, h2],
    fun p e h => ?_⟩
  · by_cases hcl : s.closed <;> simp [Sender.send, hcl, hc, hlen]
  · cases p <;> try rfl
    all_goals (rename_i t; cases t <;>
      first
        | rfl
        | exact absurd h (by simp [Packet.hasTracer]))

/-- C6: `tag()` is total on every packet: it returns `Some` of the replay tag
exactly on the replay variants `FullReplay` and `ReplayPiece`, and `None` on
every other variant, never panicking. -/
theorem claim_C6_tag_total :
    (∀ l tg s, (Packet.fullReplay l tg s).tag = some tg) ∧
    (∀ l tg d c ts, (Packet.replayPiece l tg d c ts).tag = some tg) ∧
    (∀ p : Packet, p.tag.isSome ↔ p.isReplayVariant = true) ∧
    (∀ p : Packet, p.tag = Option.none ↔ p.isReplayVariant = false) := by
  refine ⟨fun _ _ _ => rfl, fun _ _ _ _ _ => rfl, fun p => ?_, fun p => ?_⟩ <;>
    cases p <;> simp [Packet.tag, Packet.isReplayVariant]

/-- C7: for the record-carrying variants `Message`, `Transaction` and
`ReplayPiece`, `map_data(f)` replaces the records with `f` of the old records
and leaves every other field (link, transaction state, tracer, tag, replay
context) unchanged; on any other variant it panics (`none`). -/
theorem claim_C7_map_data_frame :
    (∀ l d t f, (Packet.message l d t).map_data f = some (.message l (f d) t)) ∧
    (∀ l d st t f,
      (Packet.transaction l d st t).map_data f = some (.transaction l (f d) st t)) ∧
    (∀ l tg d c ts f,
      (Packet.replayPiece l tg d c ts).map_data f = some (.replayPiece l tg (f d) c ts)) ∧
    (∀ (p : Packet) f, (p.map_data f).isSome ↔ p.carriesRecords = true) := by
  refine ⟨fun _ _ _ _ => rfl, fun _ _ _ _ _ => rfl, fun _ _ _ _ _ _ => rfl,
    fun p f => ?_⟩
  cases p <;> simp [Packet.map_data, Packet.carriesRecords]

/-- C8: `is_empty()` returns the emptiness of the carried records on `Message`,
`Transaction` and `ReplayPiece`, `true` on the `Packet::None` sentinel, and
`false` on every `FullReplay` regardless of its carried state (even an empty
one); on every other, control, variant it panics (`none`). -/
theorem claim_C8_is_empty :
    (∀ l d t, (Packet.message l d t).is_empty = some d.isEmpty) ∧
    (∀ l d st t, (Packet.transaction l d st t).is_empty = some d.isEmpty) ∧
    (∀ l tg d c ts, (Packet.replayPiece l tg d c ts).is_empty = some d.isEmpty) ∧
    (∀ l tg s, (Packet.fullReplay l tg s).is_empty = some false) ∧
    Packet.none.is_empty = some true ∧
    (∀ p : Packet, p.is_empty.isSome ↔ (p.isDataVariant = true ∨ p = Packet.none)) := by
  refine ⟨fun _ _ _ => rfl, fun _ _ _ _ => rfl, fun _ _ _ _ _ => rfl, fun _ _ _ => rfl,
    rfl, fun p => ?_⟩
  cases p <;> simp [Packet.is_empty, Packet.isDataVariant]

/-- C5 witness: a send on a closed channel and a send on a channel at capacity
both drop the message, and `trace` is a no-op on a control packet. -/
theorem claim_C5_trace_best_effort_witness :
    Sender.send { queue := [], capacity := Option.none, closed := true }
        ((0 : TimeInstant), PacketEvent.handle) =
      ({ queue := [], capacity := Option.none, closed := true }, false) ∧
    Sender.send { queue := [((0 : TimeInstant), PacketEvent.process)],
                  capacity := some 1, closed := false }
        ((0 : TimeInstant), PacketEvent.handle) =
      ({ queue := [((0 : TimeInstant), PacketEvent.process)],
         capacity := some 1, closed := false }, false) ∧
    Packet.trace Packet.quit PacketEvent.handle = Packet.quit :=
  ⟨claim_C5_trace_best_effort.2.2.1 _ _ rfl,
   claim_C5_trace_best_effort.2.2.2.1 _ _ 1 rfl (by decide),
   claim_C5_trace_best_effort.2.2.2.2.2 Packet.quit PacketEvent.handle rfl⟩

end Noria

namespace CommentVote

/-- C9: on the success path the handler inserts exactly one row into the
`"vote"` table — acting user, the looked-up comment's `story_id` and `id`, and
a final column of `1` for an up-vote and `0` for a down-vote — and returns
`Ok((conn, false))`.  The prior-vote lookup result `prior` is arbitrary (it is
discarded), so the insert happens even when the user has already voted. -/
theorem claim_C9_success_path (env : DbEnv) (c : Conn) (user : UserId)
    (comment : StoryId) (v : Vote) (row row2 row3 : Row) (sid cid : Value)
    (prior : List Row)
    (hconn : env.connRes = .ok c) (hview1 : env.view1Res = .ok ())
    (hutf8 : isValidUTF8 comment = true)
    (hlookup1 : env.lookupFirstRes = .ok (some row))
    (hsid : rowTake row "story_id" = some (sid, row2))
    (hcid : rowTake row2 "id" = some (cid, row3))
    (hview2 : env.view2Res = .ok ()) (hlookup2 : env.lookupRes = .ok prior)
    (htable : env.tableRes = .ok ()) (hinsert : env.insertRes = .ok ()) :
    handle env (some user) comment v =
      some ([("vote", [Value.int user, sid, cid,
                       Value.int (match v with | .up => 1 | .down => 0)])],
            .ok (c, false)) := by
  simp [handle, hconn, hview1, hutf8, hlookup1, hsid, hcid, hview2, hlookup2,
    htable, hinsert]

/-- C9 witness: in the sample environment (where the prior-vote lookup finds an
existing vote), an up-vote by user 3 on the comment named by bytes "hi" inserts
`(3, 7, 9, 1)` into `"vote"` and returns `Ok((conn, false))`. -/
theorem claim_C9_success_path_witness :
    handle sampleEnv (some 3) [104, 105] Vote.up =
      some ([("vote", [Value.int 3, Value.int 7, Value.int 9, Value.int 1])],
            .ok (0, false)) :=
  claim_C9_success_path sampleEnv 0 3 [104, 105] Vote.up
    [("story_id", Value.int 7), ("id", Value.int 9)] [("id", Value.int 9)] []
    (Value.int 7) (Value.int 9) [[("user", Value.int 3)]]
    rfl rfl rfl rfl rfl rfl rfl rfl rfl rfl

/-- C10 counterexample: an environment in which the connection is obtained, the
`"comment_vote_1"` lookup returns a row carrying both `"story_id"` and `"id"`,
and `acting_as` is `Some 3` — yet the handler panics (`none`) because the
comment id bytes `[255]` are not valid UTF-8, so
`str::from_utf8(..).unwrap()` fails despite the claim's preconditions. -/
theorem claim_C10_counterexample :
    sampleEnv.connRes = .ok 0 ∧
    sampleEnv.lookupFirstRes =
      .ok (some [("story_id", Value.int 7), ("id", Value.int 9)]) ∧
    rowTake [("story_id", Value.int 7), ("id", Value.int 9)] "story_id" =
      some (Value.int 7, [("id", Value.int 9)]) ∧
    rowTake [("id", Value.int 9)] "id" = some (Value.int 9, []) ∧
    handle sampleEnv (some 3) [255] Vote.up = Option.none := by
  decide

/-- C10 (amended): provided additionally that the comment id bytes are valid
UTF-8, the handler's unwraps cannot fail when `acting_as` is `Some` and the
`"comment_vote_1"` lookup returns a row carrying `"story_id"` and `"id"`
fields; and it panics (`none`) rather than returning an `Err` when — the
earlier steps having succeeded — `acting_as` is `None`, the lookup finds no
row, or the row lacks one of the two fields. -/
theorem claim_C10_amended (env : DbEnv) (c : Conn) (user : UserId)
    (comment : StoryId) (v : Vote) :
    (env.connRes = .ok c → env.view1Res = .ok () → isValidUTF8 comment = true →
      ∀ row sid row2 cid row3, env.lookupFirstRes = .ok (some row) →
        rowTake row "story_id" = some (sid, row2) →
        rowTake row2 "id" = some (cid, row3) →
        (handle env (some user) comment v).isSome = true) ∧
    (env.connRes = .ok c → handle env Option.none comment v = Option.none) ∧
    (env.connRes = .ok c → env.view1Res = .ok () → isValidUTF8 comment = true →
      env.lookupFirstRes = .ok Option.none →
      handle env (some user) comment v = Option.none) ∧
    (env.connRes = .ok c → env.view1Res = .ok () → isValidUTF8 comment = true →
      ∀ row, env.lookupFirstRes = .ok (some row) →
        rowTake row "story_id" = Option.none →
        handle env (some user) comment v = Option.none) ∧
    (env.connRes = .ok c → env.view1Res = .ok () → isValidUTF8 comment = true →
      ∀ row sid row2, env.lookupFirstRes = .ok (some row) →
        rowTake row "story_id" = some (sid, row2) →
        rowTake row2 "id" = Option.none →
        handle env (some user) comment v = Option.none) := by
  refine ⟨fun h1 h2 h3 row sid row2 cid row3 h4 h5 h6 => ?_,
    fun h1 => by simp [handle, h1],
    fun h1 h2 h3 h4 => by simp [handle, h1, h2, h3, h4],
    fun h1 h2 h3 row h4 h5 => by simp [handle, h1, h2, h3, h4, h5],
    fun h1 h2 h3 row sid row2 h4 h5 h6 => by simp [handle, h1, h2, h3, h4, h5, h6]⟩
  cases hA : env.view2Res <;> cases hB : env.lookupRes <;>
    cases hC : env.tableRes <;> cases hD : env.insertRes <;>
    simp [handle, h1, h2, h3, h4, h5, h6, hA, hB, hC, hD]

/-- C10 (amended) witness: in the sample environment the handler does not
panic for user 3 on the valid-UTF-8 comment id "hi", and does panic when
`acting_as` is `None`. -/
theorem claim_C10_amended_witness :
    (handle sampleEnv (some 3) [104, 105] Vote.up).isSome = true ∧
    handle sampleEnv Option.none [104, 105] Vote.up = Option.none :=
  ⟨(claim_C10_amended sampleEnv 0 3 [104, 105] Vote.up).1 rfl rfl rfl
      [("story_id", Value.int 7), ("id", Value.int 9)] (Value.int 7)
      [("id", Value.int 9)] (Value.int 9) [] rfl rfl rfl,
   (claim_C10_amended sampleEnv 0 3 [104, 105] Vote.up).2.1 rfl⟩

end CommentVote
